import Mathlib

/-!
Shallow embedding of `audio_collector.py` (repository `903_download`).

The script polls an m3u8-style playlist, downloads the last `.aac` segment,
and appends it to a per-schedule-period combined file.  Times of day are
modelled as `Nat` minutes since midnight (Python `datetime.time` objects for
`HH:MM` values compare exactly like their minutes-since-midnight totals).
Bytes are modelled as `List Nat`.  Network calls and file I/O outcomes are
supplied as explicit oracles; an exception that no `except` clause of the
script catches is modelled as the `CycleExit.uncaught` outcome (the main loop
has no handler, so such an exception terminates the process).
-/

/-- Substring test on character lists: Python's `needle in hay`. -/
def charsContain (needle : List Char) : List Char → Bool
  | [] => needle.isEmpty
  | c :: rest => needle.isPrefixOf (c :: rest) || charsContain needle rest

/-- Python's `pat in hay` substring containment on strings. -/
def strContains (hay pat : String) : Bool :=
  charsContain pat.data hay.data

/-- Splitter worker: current field accumulated in reverse in `acc`. -/
def splitCharsAux (sep : Char) : List Char → List Char → List String
  | acc, [] => [String.mk acc.reverse]
  | acc, c :: rest =>
    if c = sep then String.mk acc.reverse :: splitCharsAux sep [] rest
    else splitCharsAux sep (c :: acc) rest

/-- Python's `s.split(sep)` for a one-character separator (all separators the
script uses are one character): adjacent separators yield empty fields and
the result is never the empty list. -/
def pySplit (sep : Char) (s : String) : List String :=
  splitCharsAux sep [] s.data

/-- Python's `line.strip()`: drop leading and trailing whitespace. -/
def pyStrip (s : String) : String :=
  String.mk (((s.data.dropWhile Char.isWhitespace).reverse.dropWhile
    Char.isWhitespace).reverse)

/-- Decimal value of a digit string. -/
def digitsToNat (cs : List Char) : Nat :=
  cs.foldl (fun acc c => acc * 10 + (c.toNat - 48)) 0

/-- `response.text.splitlines()` for newline-separated playlist text. -/
def splitLines (text : String) : List String :=
  pySplit '\n' text

/-- `[line for line in lines if ".aac" in line]` from
`fetch_and_combine_last_audio`. -/
def audioUrls (text : String) : List String :=
  (splitLines text).filter (fun l => strContains l ".aac")

/-- `last_url.split('_')[2].split('.')[0]`: `none` models the `IndexError`
raised when the reference has fewer than three `_`-delimited fields. -/
def extractTimestamp (ref : String) : Option String :=
  match (pySplit '_' ref)[2]? with
  | some field => some ((pySplit '.' field).headD field)
  | none => none

/-- `f"audio_{timestamp}.aac"`, the key stored in `processed_files`. -/
def segmentFileName (ts : String) : String :=
  "audio_" ++ ts ++ ".aac"

/-- Observable state touched by one `fetch_and_combine_last_audio` cycle:
the in-memory processed set, the combined file's bytes, and the on-disk
temp scratch file (if present). -/
structure CycleState where
  processed : List String
  combined : List Nat
  tempFile : Option (List Nat)
deriving DecidableEq

/-- How a cycle ends: a normal return, or an exception that no `except`
clause of the script catches (only `requests.RequestException` is caught),
which propagates out and terminates the process. -/
inductive CycleExit where
  | normal : CycleExit
  | uncaught : CycleExit
deriving DecidableEq

/-- Result of one cycle, instrumented with how many segment download
attempts (`requests.get` on a segment URL) and successful appends happened. -/
structure CycleResult where
  state : CycleState
  exit : CycleExit
  downloads : Nat
  appends : Nat
deriving DecidableEq

/-- `fetch_and_combine_last_audio(api_url, combined_file_path, processed_files)`.

`playlistFetch` is the playlist GET outcome (`none` = `RequestException`,
caught by the outer handler).  `download ref` is the segment GET outcome for
reference `ref` (`none` = `RequestException`, caught by the inner handler);
base-URL resolution via `urlparse` is the excluded HTTP transport.
`appendOk` is whether opening/writing `combined_file_path` in `"ab"` mode
succeeds; an `OSError` there is caught by neither handler. -/
def fetch_and_combine_last_audio (playlistFetch : Option String)
    (download : String → Option (List Nat)) (appendOk : Bool)
    (st : CycleState) : CycleResult :=
  match playlistFetch with
  | none => ⟨st, .normal, 0, 0⟩
  | some text =>
    match (audioUrls text).getLast? with
    | none => ⟨st, .normal, 0, 0⟩
    | some lastUrl =>
      match extractTimestamp lastUrl with
      | none => ⟨st, .uncaught, 0, 0⟩
      | some ts =>
        if segmentFileName ts ∈ st.processed then ⟨st, .normal, 0, 0⟩
        else
          match download lastUrl with
          | none => ⟨st, .normal, 1, 0⟩
          | some bytes =>
            if appendOk then
              ⟨⟨segmentFileName ts :: st.processed, st.combined ++ bytes, none⟩,
                .normal, 1, 1⟩
            else
              ⟨⟨st.processed, st.combined, some bytes⟩, .uncaught, 1, 0⟩

/-- `datetime.strptime(part, "%H:%M").time()` as minutes since midnight:
1-2 digit hour below 24, literal colon, 1-2 digit minute below 60; anything
else raises `ValueError` (modelled as `none`). -/
def parseHHMM (s : String) : Option Nat :=
  match pySplit ':' s with
  | [h, m] =>
    if 1 ≤ h.data.length && h.data.length ≤ 2 && h.data.all Char.isDigit &&
        1 ≤ m.data.length && m.data.length ≤ 2 && m.data.all Char.isDigit then
      let hv := digitsToNat h.data
      let mv := digitsToNat m.data
      if hv ≤ 23 && mv ≤ 59 then some (hv * 60 + mv) else none
    else none
  | _ => none

/-- `load_schedule_conf` over the file's lines (a missing file is the `[]`
input).  The single `try` wraps the whole read loop, so a `ValueError` from
`strptime` aborts the loop and the pairs collected so far are returned;
lines that do not split on `-` into exactly two parts are skipped. -/
def load_schedule_conf : List String → List (Nat × Nat)
  | [] => []
  | line :: rest =>
    match pySplit '-' (pyStrip line) with
    | [a, b] =>
      match parseHHMM a with
      | none => []
      | some s =>
        match parseHHMM b with
        | none => []
        | some e => (s, e) :: load_schedule_conf rest
    | _ => load_schedule_conf rest

/-- `get_current_period(schedule)`, with `datetime.now().time()` made an
explicit parameter `current_time`. -/
def get_current_period (schedule : List (Nat × Nat)) (current_time : Nat) :
    Option (Nat × Nat) :=
  match schedule with
  | [] => none
  | (s, e) :: rest =>
    if s ≤ e then
      if s ≤ current_time ∧ current_time ≤ e then some (s, e)
      else get_current_period rest current_time
    else
      if current_time ≥ s ∨ current_time ≤ e then some (s, e)
      else get_current_period rest current_time

/-- The spec's matching condition for a single window, written from the
spec's own words to compare with `get_current_period`: a normal window
(`start <= end`) matches iff `start <= t <= end`, a wrap-around window
(`start > end`) matches iff `t >= start or t <= end`, boundaries inclusive. -/
def specWindowActive (w : Nat × Nat) (t : Nat) : Bool :=
  if w.1 ≤ w.2 then decide (w.1 ≤ t ∧ t ≤ w.2)
  else decide (t ≥ w.1 ∨ t ≤ w.2)

/-- `current_time.strftime('%H%M')`-style zero-padded rendering of one
two-digit field. -/
def pad2 (n : Nat) : String :=
  if n < 10 then "0" ++ toString n else toString n

/-- `strftime('%H%M')` of a minutes-since-midnight value. -/
def fmtHHMM (n : Nat) : String :=
  pad2 (n / 60) ++ pad2 (n % 60)

/-- `os.path.join(OUTPUT_DIR, f"combined_{today_date}_{start}_{end}.aac")`
with `OUTPUT_DIR = "sound"`. -/
def combinedFilePath (date : String) (w : Nat × Nat) : String :=
  "sound/combined_" ++ date ++ "_" ++ fmtHHMM w.1 ++ "_" ++ fmtHHMM w.2 ++ ".aac"

/-- The main loop's persistent period state: `current_period` and
`current_combined_file` (both start as `None`). -/
structure LoopState where
  current_period : Option (Nat × Nat)
  current_combined_file : Option String
deriving DecidableEq

/-- The period-transition step of the main loop body:
`if period != current_period: current_period = period; if current_period:
current_combined_file = <new path>`.  On a change to `None` the old
`current_combined_file` is kept as-is. -/
def periodTick (st : LoopState) (schedule : List (Nat × Nat)) (now : Nat)
    (date : String) : LoopState :=
  let period := get_current_period schedule now
  if period ≠ st.current_period then
    match period with
    | some w => ⟨some w, some (combinedFilePath date w)⟩
    | none => ⟨none, st.current_combined_file⟩
  else st

/-- Result of one iteration of the `while True` loop, instrumented with
whether `get_current_period` was reached and whether
`fetch_and_combine_last_audio` was invoked. -/
structure IterResult where
  state : LoopState
  period_recomputed : Bool
  cycle_invoked : Bool
deriving DecidableEq

/-- One iteration of the main loop: reload the schedule from its file's
lines, reload the API URL (`none` models a missing/unreadable/empty
`api_link.txt`, which makes the loop `continue` before the period is
computed), then run the period transition. -/
def loopIteration (scheduleLines : List String) (apiUrl : Option String)
    (now : Nat) (date : String) (st : LoopState) : IterResult :=
  match apiUrl with
  | none => ⟨st, false, false⟩
  | some _ =>
    let st1 := periodTick st (load_schedule_conf scheduleLines) now date
    ⟨st1, true, st1.current_period.isSome⟩

/-! ### Helper lemmas about one cycle -/

/-- A cycle whose playlist fetch fails is a caught no-op. -/
theorem fetch_run_playlistFail (download : String → Option (List Nat))
    (appendOk : Bool) (st : CycleState) :
    fetch_and_combine_last_audio none download appendOk st =
      ⟨st, .normal, 0, 0⟩ := rfl

/-- A cycle that reaches the dedup check on an already-processed id is a
no-op: no download attempt, no append, state unchanged. -/
theorem fetch_run_skip (text : String) (download : String → Option (List Nat))
    (appendOk : Bool) (st : CycleState) (lastUrl ts : String)
    (hlast : (audioUrls text).getLast? = some lastUrl)
    (hts : extractTimestamp lastUrl = some ts)
    (hmem : segmentFileName ts ∈ st.processed) :
    fetch_and_combine_last_audio (some text) download appendOk st =
      ⟨st, .normal, 0, 0⟩ := by
  simp only [fetch_and_combine_last_audio, hlast, hts]
  simp [hmem]

/-- A cycle whose segment download fails is caught: one download attempt,
no append, state unchanged. -/
theorem fetch_run_downloadFail (text : String)
    (download : String → Option (List Nat)) (appendOk : Bool)
    (st : CycleState) (lastUrl ts : String)
    (hlast : (audioUrls text).getLast? = some lastUrl)
    (hts : extractTimestamp lastUrl = some ts)
    (hnew : segmentFileName ts ∉ st.processed)
    (hdl : download lastUrl = none) :
    fetch_and_combine_last_audio (some text) download appendOk st =
      ⟨st, .normal, 1, 0⟩ := by
  simp only [fetch_and_combine_last_audio, hlast, hts]
  simp [hnew, hdl]

/-- The fully successful cycle: download and append the last segment, mark
it processed, delete the scratch file. -/
theorem fetch_run_success (text : String)
    (download : String → Option (List Nat)) (st : CycleState)
    (lastUrl ts : String) (bs : List Nat)
    (hlast : (audioUrls text).getLast? = some lastUrl)
    (hts : extractTimestamp lastUrl = some ts)
    (hnew : segmentFileName ts ∉ st.processed)
    (hdl : download lastUrl = some bs) :
    fetch_and_combine_last_audio (some text) download true st =
      ⟨⟨segmentFileName ts :: st.processed, st.combined ++ bs, none⟩,
        .normal, 1, 1⟩ := by
  simp only [fetch_and_combine_last_audio, hlast, hts]
  simp [hnew, hdl]

/-- A cycle whose append raises: the exception is uncaught, nothing is
marked, the combined file is unchanged, the scratch file is left behind. -/
theorem fetch_run_appendFail (text : String)
    (download : String → Option (List Nat)) (st : CycleState)
    (lastUrl ts : String) (bs : List Nat)
    (hlast : (audioUrls text).getLast? = some lastUrl)
    (hts : extractTimestamp lastUrl = some ts)
    (hnew : segmentFileName ts ∉ st.processed)
    (hdl : download lastUrl = some bs) :
    fetch_and_combine_last_audio (some text) download false st =
      ⟨⟨st.processed, st.combined, some bs⟩, .uncaught, 1, 0⟩ := by
  simp only [fetch_and_combine_last_audio, hlast, hts]
  simp [hnew, hdl]

/-- A cycle whose last reference has too few fields: uncaught IndexError. -/
theorem fetch_run_malformed (text : String)
    (download : String → Option (List Nat)) (appendOk : Bool)
    (st : CycleState) (lastUrl : String)
    (hlast : (audioUrls text).getLast? = some lastUrl)
    (hts : extractTimestamp lastUrl = none) :
    fetch_and_combine_last_audio (some text) download appendOk st =
      ⟨st, .uncaught, 0, 0⟩ := by
  simp only [fetch_and_combine_last_audio, hlast, hts]

/-- `current_period` of the loop state after a tick is always the window
`get_current_period` resolves for that tick. -/
theorem periodTick_current_period (st : LoopState)
    (schedule : List (Nat × Nat)) (now : Nat) (date : String) :
    (periodTick st schedule now date).current_period =
      get_current_period schedule now := by
  unfold periodTick
  by_cases h : get_current_period schedule now = st.current_period
  · simp [h]
  · cases hp : get_current_period schedule now with
    | none => rw [hp] at h; simp [h]
    | some w => rw [hp] at h; simp [h]

/-! ### Claim theorems -/

/-- C1: in every cycle, a segment id is added to the processed set iff that
segment's bytes were successfully appended to the combined file: either the
cycle performs no append and leaves the processed set and the combined file
unchanged, or it performs exactly one successful append and adds exactly the
appended segment's id; a failed download or failed append falls in the first
case. -/
theorem c1_processed_iff_appended (pf : Option String)
    (dl : String → Option (List Nat)) (ap : Bool) (st : CycleState) :
    ((fetch_and_combine_last_audio pf dl ap st).appends = 0 ∧
      (fetch_and_combine_last_audio pf dl ap st).state.processed = st.processed ∧
      (fetch_and_combine_last_audio pf dl ap st).state.combined = st.combined) ∨
    (∃ fn bs, (fetch_and_combine_last_audio pf dl ap st).appends = 1 ∧
      fn ∉ st.processed ∧ ap = true ∧
      (fetch_and_combine_last_audio pf dl ap st).state.processed =
        fn :: st.processed ∧
      (fetch_and_combine_last_audio pf dl ap st).state.combined =
        st.combined ++ bs) := by
  cases pf with
  | none => left; rw [fetch_run_playlistFail]; exact ⟨rfl, rfl, rfl⟩
  | some text =>
    cases hlast : (audioUrls text).getLast? with
    | none =>
      left
      simp only [fetch_and_combine_last_audio, hlast]
      exact ⟨trivial, trivial, trivial⟩
    | some lastUrl =>
      cases hts : extractTimestamp lastUrl with
      | none =>
        left
        rw [fetch_run_malformed text dl ap st lastUrl hlast hts]
        exact ⟨rfl, rfl, rfl⟩
      | some ts =>
        by_cases hmem : segmentFileName ts ∈ st.processed
        · left
          rw [fetch_run_skip text dl ap st lastUrl ts hlast hts hmem]
          exact ⟨rfl, rfl, rfl⟩
        · cases hdl : dl lastUrl with
          | none =>
            left
            rw [fetch_run_downloadFail text dl ap st lastUrl ts hlast hts hmem hdl]
            exact ⟨rfl, rfl, rfl⟩
          | some bs =>
            cases ap with
            | false =>
              left
              rw [fetch_run_appendFail text dl st lastUrl ts bs hlast hts hmem hdl]
              exact ⟨rfl, rfl, rfl⟩
            | true =>
              right
              rw [fetch_run_success text dl st lastUrl ts bs hlast hts hmem hdl]
              exact ⟨segmentFileName ts, bs, rfl, hmem, rfl, rfl, rfl⟩

/-- C2: `get_current_period` returns the first window in list order that
matches the current time, where a normal window (start ≤ end) matches iff
start ≤ t ≤ end, a wrap-around window (start > end) matches iff t ≥ start or
t ≤ end, boundary times are inclusive, and an empty schedule or no match
yields `none` — i.e. it equals `List.find?` of the spec's matching
condition. -/
theorem c2_get_current_period_first_match (schedule : List (Nat × Nat))
    (t : Nat) :
    get_current_period schedule t =
      schedule.find? (fun w => specWindowActive w t) := by
  induction schedule with
  | nil => rfl
  | cons hd tl ih =>
    obtain ⟨s, e⟩ := hd
    by_cases h1 : s ≤ e
    · by_cases h2 : s ≤ t ∧ t ≤ e
      · simp [get_current_period, h1, h2, List.find?, specWindowActive]
      · simp [get_current_period, h1, h2, List.find?, specWindowActive, ih]
    · by_cases h2 : t ≥ s ∨ t ≤ e
      · simp [get_current_period, h1, h2, List.find?, specWindowActive]
      · simp [get_current_period, h1, h2, List.find?, specWindowActive, ih]

/-- C3: only the last `.aac` reference of the fetched playlist is selected —
the cycle's outcome depends on the download oracle only at that reference —
and running a second cycle on the same playlist text after a successful
first cycle is a no-op: no download attempt, no append, state unchanged, so
the two cycles perform exactly one append in total. -/
theorem c3_last_only_and_idempotent (text : String)
    (dl : String → Option (List Nat)) (st : CycleState)
    (lastUrl ts : String) (bs : List Nat)
    (hlast : (audioUrls text).getLast? = some lastUrl)
    (hts : extractTimestamp lastUrl = some ts)
    (hnew : segmentFileName ts ∉ st.processed)
    (hdl : dl lastUrl = some bs) :
    (fetch_and_combine_last_audio (some text) dl true st).appends = 1 ∧
    (∀ dl2 : String → Option (List Nat), dl2 lastUrl = some bs →
      fetch_and_combine_last_audio (some text) dl2 true st =
        fetch_and_combine_last_audio (some text) dl true st) ∧
    fetch_and_combine_last_audio (some text) dl true
        (fetch_and_combine_last_audio (some text) dl true st).state =
      ⟨(fetch_and_combine_last_audio (some text) dl true st).state,
        .normal, 0, 0⟩ := by
  have h1 := fetch_run_success text dl st lastUrl ts bs hlast hts hnew hdl
  refine ⟨by rw [h1], ?_, ?_⟩
  · intro dl2 hdl2
    rw [h1, fetch_run_success text dl2 st lastUrl ts bs hlast hts hnew hdl2]
  · rw [h1]
    exact fetch_run_skip text dl true _ lastUrl ts hlast hts
      (List.mem_cons_self _ _)

/-- Witness for C3, at the spec's own scenario playlist: the last
reference's id is `20240101T0005`, the first cycle appends once, and the
second cycle on the unchanged processed set is a no-op. -/
theorem c3_witness :
    (fetch_and_combine_last_audio
        (some "seg_001_20240101T0000.aac\nseg_001_20240101T0005.aac")
        (fun _ => some [7]) true ⟨[], [], none⟩).appends = 1 ∧
    fetch_and_combine_last_audio
        (some "seg_001_20240101T0000.aac\nseg_001_20240101T0005.aac")
        (fun _ => some [7]) true
        (fetch_and_combine_last_audio
          (some "seg_001_20240101T0000.aac\nseg_001_20240101T0005.aac")
          (fun _ => some [7]) true ⟨[], [], none⟩).state =
      ⟨(fetch_and_combine_last_audio
          (some "seg_001_20240101T0000.aac\nseg_001_20240101T0005.aac")
          (fun _ => some [7]) true ⟨[], [], none⟩).state, .normal, 0, 0⟩ := by
  have h := c3_last_only_and_idempotent
    "seg_001_20240101T0000.aac\nseg_001_20240101T0005.aac"
    (fun _ => some [7]) ⟨[], [], none⟩
    "seg_001_20240101T0005.aac" "20240101T0005" [7]
    (by decide) (by decide) (by decide) rfl
  exact ⟨h.1, h.2.2⟩

/-- C4 counterexample: a cycle whose append to the combined file fails with
an I/O error does not end normally — only `requests.RequestException` is
caught, so the `OSError` propagates out of `fetch_and_combine_last_audio`
and, the main loop having no handler, terminates the process, contrary to
the claim that the error is logged and the cycle merely ends. -/
theorem c4_counterexample :
    (fetch_and_combine_last_audio (some "a_b_c.aac") (fun _ => some [0])
        false ⟨[], [], none⟩).exit ≠ CycleExit.normal ∧
    (fetch_and_combine_last_audio (some "a_b_c.aac") (fun _ => some [0])
        false ⟨[], [], none⟩).exit = CycleExit.uncaught := by decide

/-- C4 amended: when the append fails with an I/O error the segment is
indeed not marked processed and the combined file is unchanged, but the
exception is not caught (only requests exceptions are), so it propagates
out of the cycle and terminates the process instead of being logged and
retried. -/
theorem c4_amended_append_failure (text : String)
    (dl : String → Option (List Nat)) (st : CycleState)
    (lastUrl ts : String) (bs : List Nat)
    (hlast : (audioUrls text).getLast? = some lastUrl)
    (hts : extractTimestamp lastUrl = some ts)
    (hnew : segmentFileName ts ∉ st.processed)
    (hdl : dl lastUrl = some bs) :
    (fetch_and_combine_last_audio (some text) dl false st).exit =
      CycleExit.uncaught ∧
    (fetch_and_combine_last_audio (some text) dl false st).state.processed =
      st.processed ∧
    (fetch_and_combine_last_audio (some text) dl false st).state.combined =
      st.combined ∧
    (fetch_and_combine_last_audio (some text) dl false st).appends = 0 := by
  rw [fetch_run_appendFail text dl st lastUrl ts bs hlast hts hnew hdl]
  exact ⟨rfl, rfl, rfl, rfl⟩

/-- Witness for the amended C4 at a concrete failing append. -/
theorem c4_amended_witness :
    (fetch_and_combine_last_audio (some "a_b_c.aac") (fun _ => some [9])
        false ⟨[], [5], none⟩).exit = CycleExit.uncaught ∧
    (fetch_and_combine_last_audio (some "a_b_c.aac") (fun _ => some [9])
        false ⟨[], [5], none⟩).state.processed = [] ∧
    (fetch_and_combine_last_audio (some "a_b_c.aac") (fun _ => some [9])
        false ⟨[], [5], none⟩).state.combined = [5] ∧
    (fetch_and_combine_last_audio (some "a_b_c.aac") (fun _ => some [9])
        false ⟨[], [5], none⟩).appends = 0 :=
  c4_amended_append_failure "a_b_c.aac" (fun _ => some [9]) ⟨[], [5], none⟩
    "a_b_c.aac" "c" [9] (by decide) (by decide) (by decide) rfl

/-- C5 counterexample: a playlist whose last (and only) `.aac` reference
`"ab.aac"` has a single `_`-delimited field makes the id extraction raise
`IndexError`, which no handler catches — the cycle does not end normally,
contrary to the claim that this is treated as a non-fatal
skip-this-cycle. -/
theorem c5_counterexample :
    (fetch_and_combine_last_audio (some "ab.aac") (fun _ => some [0]) true
        ⟨[], [], none⟩).exit ≠ CycleExit.normal ∧
    (fetch_and_combine_last_audio (some "ab.aac") (fun _ => some [0]) true
        ⟨[], [], none⟩).exit = CycleExit.uncaught := by decide

/-- C5 amended: when the last reference has fewer than three `_`-delimited
fields the extraction fails before any download or append and the state is
unchanged, but the resulting `IndexError` is uncaught and terminates the
process instead of being a non-fatal skip. -/
theorem c5_amended_malformed_reference (text : String)
    (dl : String → Option (List Nat)) (appendOk : Bool) (st : CycleState)
    (lastUrl : String)
    (hlast : (audioUrls text).getLast? = some lastUrl)
    (hfew : (pySplit '_' lastUrl).length < 3) :
    (fetch_and_combine_last_audio (some text) dl appendOk st).exit =
      CycleExit.uncaught ∧
    (fetch_and_combine_last_audio (some text) dl appendOk st).state = st ∧
    (fetch_and_combine_last_audio (some text) dl appendOk st).downloads = 0 ∧
    (fetch_and_combine_last_audio (some text) dl appendOk st).appends = 0 := by
  have hts : extractTimestamp lastUrl = none := by
    unfold extractTimestamp
    rw [List.getElem?_eq_none (by omega)]
  rw [fetch_run_malformed text dl appendOk st lastUrl hlast hts]
  exact ⟨rfl, rfl, rfl, rfl⟩

/-- Witness for the amended C5 on the one-field reference `"ab.aac"`. -/
theorem c5_amended_witness :
    (fetch_and_combine_last_audio (some "ab.aac") (fun _ => some [0]) true
        ⟨[], [], none⟩).exit = CycleExit.uncaught ∧
    (fetch_and_combine_last_audio (some "ab.aac") (fun _ => some [0]) true
        ⟨[], [], none⟩).state = ⟨[], [], none⟩ ∧
    (fetch_and_combine_last_audio (some "ab.aac") (fun _ => some [0]) true
        ⟨[], [], none⟩).downloads = 0 ∧
    (fetch_and_combine_last_audio (some "ab.aac") (fun _ => some [0]) true
        ⟨[], [], none⟩).appends = 0 :=
  c5_amended_malformed_reference "ab.aac" (fun _ => some [0]) true
    ⟨[], [], none⟩ "ab.aac" (by decide) (by decide)

/-- C7 counterexample: after a cycle whose append fails, the temporary
scratch file staged in `temp/` is still on disk — `os.remove` only runs on
the success path, so the claim that the scratch file is removed regardless
of the append outcome is false. -/
theorem c7_counterexample :
    (fetch_and_combine_last_audio (some "a_b_c.aac") (fun _ => some [3])
        false ⟨[], [], none⟩).state.tempFile ≠ none ∧
    (fetch_and_combine_last_audio (some "a_b_c.aac") (fun _ => some [3])
        false ⟨[], [], none⟩).state.tempFile = some [3] := by decide

/-- C7 amended: the scratch file is removed only on the success path — a
cycle whose append succeeds ends with no scratch file on disk, while a
cycle whose append fails leaves the downloaded bytes orphaned in the
scratch file. -/
theorem c7_amended_scratch_cleanup (text : String)
    (dl : String → Option (List Nat)) (st : CycleState)
    (lastUrl ts : String) (bs : List Nat)
    (hlast : (audioUrls text).getLast? = some lastUrl)
    (hts : extractTimestamp lastUrl = some ts)
    (hnew : segmentFileName ts ∉ st.processed)
    (hdl : dl lastUrl = some bs) :
    (fetch_and_combine_last_audio (some text) dl true st).state.tempFile =
      none ∧
    (fetch_and_combine_last_audio (some text) dl false st).state.tempFile =
      some bs := by
  rw [fetch_run_success text dl st lastUrl ts bs hlast hts hnew hdl,
    fetch_run_appendFail text dl st lastUrl ts bs hlast hts hnew hdl]
  exact ⟨rfl, rfl⟩

/-- Witness for the amended C7: success removes the scratch file, failure
orphans it. -/
theorem c7_amended_witness :
    (fetch_and_combine_last_audio (some "a_b_c.aac") (fun _ => some [3])
        true ⟨[], [], none⟩).state.tempFile = none ∧
    (fetch_and_combine_last_audio (some "a_b_c.aac") (fun _ => some [3])
        false ⟨[], [], none⟩).state.tempFile = some [3] :=
  c7_amended_scratch_cleanup "a_b_c.aac" (fun _ => some [3]) ⟨[], [], none⟩
    "a_b_c.aac" "c" [3] (by decide) (by decide) (by decide) rfl

/-- No cycle ever truncates the combined file: its bytes after the cycle
are the old bytes followed by whatever (possibly nothing) was appended. -/
theorem fetch_combined_extends (pf : Option String)
    (dl : String → Option (List Nat)) (ap : Bool) (cst : CycleState) :
    ∃ bs, (fetch_and_combine_last_audio pf dl ap cst).state.combined =
      cst.combined ++ bs := by
  cases pf with
  | none => exact ⟨[], by rw [fetch_run_playlistFail]; simp⟩
  | some text =>
    cases hlast : (audioUrls text).getLast? with
    | none =>
      refine ⟨[], ?_⟩
      simp only [fetch_and_combine_last_audio, hlast]
      simp
    | some lastUrl =>
      cases hts : extractTimestamp lastUrl with
      | none =>
        exact ⟨[], by
          rw [fetch_run_malformed text dl ap cst lastUrl hlast hts]; simp⟩
      | some ts =>
        by_cases hmem : segmentFileName ts ∈ cst.processed
        · exact ⟨[], by
            rw [fetch_run_skip text dl ap cst lastUrl ts hlast hts hmem]; simp⟩
        · cases hdl : dl lastUrl with
          | none =>
            exact ⟨[], by
              rw [fetch_run_downloadFail text dl ap cst lastUrl ts hlast hts
                hmem hdl]; simp⟩
          | some bs =>
            cases ap with
            | false =>
              exact ⟨[], by
                rw [fetch_run_appendFail text dl cst lastUrl ts bs hlast hts
                  hmem hdl]; simp⟩
            | true =>
              exact ⟨bs, by
                rw [fetch_run_success text dl cst lastUrl ts bs hlast hts
                  hmem hdl]⟩

/-- C6 counterexample: at a tick where the resolved window changes from
`(09:00,10:00)` to `None`, the combined-file target is not recomputed — it
still names the old window's bounds — contrary to the claim that a change
of window value (including to `None`) recomputes the target path. -/
theorem c6_counterexample :
    (periodTick ⟨some (540, 600), some "sound/combined_20240101_0900_1000.aac"⟩
        [] 720 "20240102").current_period = none ∧
    (periodTick ⟨some (540, 600), some "sound/combined_20240101_0900_1000.aac"⟩
        [] 720 "20240102").current_combined_file =
      some "sound/combined_20240101_0900_1000.aac" := by decide

/-- C6 amended: when the resolved window changes to a non-`None` value `w`
the target path is recomputed as
`sound/combined_<YYYYMMDD>_<HHMM_start>_<HHMM_end>.aac` from the current
date and `w`'s bounds; when the window is unchanged the whole state
(including the target path) is unchanged; when the window changes to `None`
the previous target path is retained as-is. -/
theorem c6_amended_target_recompute (st : LoopState)
    (schedule : List (Nat × Nat)) (now : Nat) (date : String) :
    (get_current_period schedule now = st.current_period →
      periodTick st schedule now date = st) ∧
    (∀ w, get_current_period schedule now = some w →
      some w ≠ st.current_period →
      periodTick st schedule now date =
        ⟨some w, some (combinedFilePath date w)⟩) ∧
    (get_current_period schedule now = none →
      (periodTick st schedule now date).current_combined_file =
        st.current_combined_file) := by
  refine ⟨?_, ?_, ?_⟩
  · intro h
    unfold periodTick
    simp [h]
  · intro w hw hne
    unfold periodTick
    rw [hw]
    simp [hne]
  · intro h
    unfold periodTick
    rw [h]
    by_cases h2 : (none : Option (Nat × Nat)) = st.current_period
    · simp [h2]
    · simp [h2]

/-- Witness for the amended C6, at the spec's scenario: schedule
`09:00-10:00`, time `09:30` — the new target is
`sound/combined_20240101_0900_1000.aac`. -/
theorem c6_amended_witness :
    periodTick ⟨none, none⟩ [(540, 600)] 570 "20240101" =
      ⟨some (540, 600), some "sound/combined_20240101_0900_1000.aac"⟩ := by
  have h := (c6_amended_target_recompute ⟨none, none⟩ [(540, 600)] 570
    "20240101").2.1 (540, 600) (by decide) (by decide)
  exact h.trans (by decide)

/-- C8 counterexample: the first line `"09:0x-10:00"` splits into two
`-`-fields but fails `HH:MM` parsing, and the exception aborts the whole
read loop — the well-formed second line `"11:00-12:00"` does not contribute
its pair, contrary to the claim that malformed lines are skipped with every
well-formed line elsewhere still contributing. -/
theorem c8_counterexample :
    load_schedule_conf ["09:0x-10:00", "11:00-12:00"] = [] ∧
    (660, 720) ∉ load_schedule_conf ["09:0x-10:00", "11:00-12:00"] := by
  decide

/-- C8 amended: a line that does not split on `-` into exactly two fields is
skipped and later lines still contribute; a well-formed line contributes its
pair in file order; but a two-field line whose fields fail `HH:MM` parsing
aborts the load — the pairs collected before it are returned and every later
line is dropped. -/
theorem c8_amended_malformed_lines :
    (∀ line rest, (pySplit '-' (pyStrip line)).length ≠ 2 →
      load_schedule_conf (line :: rest) = load_schedule_conf rest) ∧
    (∀ line rest a b, pySplit '-' (pyStrip line) = [a, b] →
      parseHHMM a = none ∨ parseHHMM b = none →
      load_schedule_conf (line :: rest) = []) ∧
    (∀ line rest a b s e, pySplit '-' (pyStrip line) = [a, b] →
      parseHHMM a = some s → parseHHMM b = some e →
      load_schedule_conf (line :: rest) =
        (s, e) :: load_schedule_conf rest) := by
  refine ⟨?_, ?_, ?_⟩
  · intro line rest h
    simp only [load_schedule_conf]
    rcases hl : pySplit '-' (pyStrip line) with _ | ⟨a, _ | ⟨b, _ | ⟨c, t⟩⟩⟩
    · rfl
    · rfl
    · rw [hl] at h
      simp at h
    · rfl
  · intro line rest a b hl hab
    simp only [load_schedule_conf]
    rw [hl]
    rcases hab with ha | hb
    · simp [ha]
    · cases hpa : parseHHMM a with
      | none => simp [hpa]
      | some s => simp [hpa, hb]
  · intro line rest a b s e hl hpa hpb
    simp only [load_schedule_conf]
    rw [hl]
    simp [hpa, hpb]

/-- Witness for the amended C8: a one-field line is skipped without losing
the later line, a bad two-field line aborts to the empty schedule, and a
well-formed line contributes its `(540, 600)` pair. -/
theorem c8_amended_witness :
    load_schedule_conf ["xx", "09:00-10:00"] =
      load_schedule_conf ["09:00-10:00"] ∧
    load_schedule_conf ["9z:00-10:00"] = [] ∧
    load_schedule_conf ["09:00-10:00"] =
      (540, 600) :: load_schedule_conf [] := by
  have h := c8_amended_malformed_lines
  refine ⟨h.1 "xx" ["09:00-10:00"] (by decide), ?_, ?_⟩
  · exact h.2.1 "9z:00-10:00" [] "9z:00" "10:00" (by decide)
      (Or.inl (by decide))
  · exact h.2.2 "09:00-10:00" [] "09:00" "10:00" 540 600 (by decide)
      (by decide) (by decide)

/-- C9 counterexample: an iteration whose API URL is missing returns before
`get_current_period` is reached — the loop state keeps the stale window
`(09:00,10:00)` even though the freshly loaded schedule (`12:00-13:00`)
resolves to no active window at 09:30 — contrary to the claim that the
active period is recomputed on every iteration, including those with a
missing or unreadable API URL. -/
theorem c9_counterexample :
    (loopIteration ["12:00-13:00"] none 570 "20240101"
        ⟨some (540, 600), some "sound/combined_20240101_0900_1000.aac"⟩
      ).state.current_period = some (540, 600) ∧
    get_current_period (load_schedule_conf ["12:00-13:00"]) 570 = none ∧
    (loopIteration ["12:00-13:00"] none 570 "20240101"
        ⟨some (540, 600), some "sound/combined_20240101_0900_1000.aac"⟩
      ).period_recomputed = false := by decide

/-- C9 amended: the schedule and API URL are reloaded on every iteration,
and on every iteration with a present (non-empty, readable) API URL the
active period is recomputed from the freshly loaded schedule and current
time; but an iteration with a missing or unreadable API URL ends before the
period is computed, leaving the loop state unchanged. -/
theorem c9_amended_reload_shortcircuit (lines : List String) (now : Nat)
    (date : String) (st : LoopState) :
    (∀ url, (loopIteration lines (some url) now date st).state.current_period
        = get_current_period (load_schedule_conf lines) now ∧
      (loopIteration lines (some url) now date st).period_recomputed =
        true) ∧
    loopIteration lines none now date st = ⟨st, false, false⟩ := by
  refine ⟨fun url => ⟨?_, rfl⟩, rfl⟩
  exact periodTick_current_period st (load_schedule_conf lines) now date

/-- C10: two activations of the same schedule window on the same calendar
date compute the identical combined-file target path (here: activation,
deactivation, reactivation), and no cycle ever truncates the combined
file — its old bytes always remain a prefix — so the reactivated window
resumes appending to the same existing file. -/
theorem c10_same_window_same_target (st : LoopState)
    (sched1 sched2 sched3 : List (Nat × Nat)) (t1 t2 t3 : Nat) (d : String)
    (w : Nat × Nat)
    (h0 : st.current_period ≠ some w)
    (h1 : get_current_period sched1 t1 = some w)
    (h2 : get_current_period sched2 t2 = none)
    (h3 : get_current_period sched3 t3 = some w) :
    (periodTick st sched1 t1 d).current_combined_file =
      some (combinedFilePath d w) ∧
    (periodTick (periodTick (periodTick st sched1 t1 d) sched2 t2 d)
        sched3 t3 d).current_combined_file =
      some (combinedFilePath d w) ∧
    (∀ (pf : Option String) (dl : String → Option (List Nat)) (ap : Bool)
        (cst : CycleState), ∃ bs,
      (fetch_and_combine_last_audio pf dl ap cst).state.combined =
        cst.combined ++ bs) := by
  have e1 : periodTick st sched1 t1 d =
      ⟨some w, some (combinedFilePath d w)⟩ := by
    unfold periodTick
    rw [h1]
    simp [Ne.symm h0]
  have e2 : periodTick (⟨some w, some (combinedFilePath d w)⟩ : LoopState)
      sched2 t2 d = ⟨none, some (combinedFilePath d w)⟩ := by
    unfold periodTick
    rw [h2]
    simp
  have e3 : periodTick (⟨none, some (combinedFilePath d w)⟩ : LoopState)
      sched3 t3 d = ⟨some w, some (combinedFilePath d w)⟩ := by
    unfold periodTick
    rw [h3]
    simp
  refine ⟨by rw [e1], by rw [e1, e2, e3], ?_⟩
  intro pf dl ap cst
  exact fetch_combined_extends pf dl ap cst

/-- Witness for C10: the `09:00-10:00` window activated at 09:30, gone at
12:00, reactivated at 09:50 on the same date targets the same path both
times. -/
theorem c10_witness :
    (periodTick ⟨none, none⟩ [(540, 600)] 570 "20240101"
      ).current_combined_file =
      some "sound/combined_20240101_0900_1000.aac" ∧
    (periodTick (periodTick (periodTick ⟨none, none⟩ [(540, 600)] 570
        "20240101") [] 720 "20240101") [(540, 600)] 590 "20240101"
      ).current_combined_file =
      some "sound/combined_20240101_0900_1000.aac" := by
  have h := c10_same_window_same_target ⟨none, none⟩ [(540, 600)] []
    [(540, 600)] 570 720 590 "20240101" (540, 600)
    (by decide) (by decide) (by decide) (by decide)
  exact ⟨h.1.trans (by decide), h.2.1.trans (by decide)⟩
